import Mathlib

/-!
Verification of the server-side session middleware of
`src/poem/src/session/server_session.rs`.

The middleware wraps an inner endpoint: it reads the session identifier
from the request cookie, loads or creates the `Session`, invokes the inner
handler on it, and afterwards reconciles the storage backend and the
cookie jar from the final session status.  We embed `ServerSessionEndpoint::call`
as a pure function from the request inputs (storage contents, cookie jar,
ttl, the freshly generated identifier, a schedule of which storage calls
fail) and the inner handler to an outcome: the request result, the final
storage contents, the final cookie jar, and the ordered trace of the
operations performed.
-/

namespace ServerSession

/-- Session entry map (`BTreeMap<String, Value>` in the source),
    modelled as an association list from keys to serialized values. -/
abbrev Entries := List (String × String)

/-- Modelled from the spec: the session status flag (`SessionStatus`, from
    `src/session`, whose file is not among the sources): one of
    `Unchanged | Changed | Renewed | Purged`. -/
inductive SessionStatus where
  | unchanged
  | changed
  | renewed
  | purged
deriving DecidableEq

/-- Modelled from the spec: the per-request `Session` container
    (`src/session/session.rs`, not among the sources): a key-value bag of
    entries plus a status flag. -/
structure Session where
  entries : Entries
  status : SessionStatus
deriving DecidableEq

/-- Modelled from the spec: `Session::new` builds a session pre-populated
    from storage, with status `Unchanged`. -/
def Session.new (entries : Entries) : Session :=
  ⟨entries, SessionStatus.unchanged⟩

/-- Modelled from the spec: `Session::default` builds an empty session
    with status `Unchanged` (no prior identifier found). -/
def Session.defaultSession : Session :=
  ⟨[], SessionStatus.unchanged⟩

/-- Modelled from the spec: on any entry mutation the status advances
    `Unchanged -> Changed` and never regresses from a stronger signal
    (`Renewed` and `Purged` stay as they are). -/
def SessionStatus.promote : SessionStatus → SessionStatus
  | .unchanged => .changed
  | s => s

/-- Modelled from the spec: a write accessor of the session; it stores the
    pair and promotes the status. -/
def Session.set (s : Session) (k v : String) : Session :=
  ⟨(k, v) :: s.entries.filter (fun e => e.1 ≠ k), s.status.promote⟩

/-- Modelled from the spec: `Session::renew` marks the status `Renewed`,
    forcing identifier rotation. -/
def Session.renew (s : Session) : Session :=
  ⟨s.entries, SessionStatus.renewed⟩

/-- Modelled from the spec: `Session::purge` marks the status `Purged`,
    forcing full destruction. -/
def Session.purge (s : Session) : Session :=
  ⟨s.entries, SessionStatus.purged⟩

/-- The storage error kind (`StorageError` in the spec): backend
    unreachable, read/write failure. -/
inductive StorageError where
  | storageError
deriving DecidableEq

/-- Storage backend contents: records keyed by session identifier. -/
abbrev Store := List (String × Entries)

/-- The record stored under `id`, if any. -/
def storeLookup (store : Store) (id : String) : Option Entries :=
  (store.find? (fun r => r.1 == id)).map (fun r => r.2)

/-- Modelled from the spec: `SessionStorage::load_session` returns the
    stored mapping for `id`, and an empty mapping (not an error) when `id`
    is unknown or expired. -/
def storeLoad (store : Store) (id : String) : Entries :=
  (storeLookup store id).getD []

/-- Modelled from the spec: `SessionStorage::update_session` writes or
    overwrites the full entry mapping for `id`. -/
def storeUpsert (store : Store) (id : String) (entries : Entries) : Store :=
  (id, entries) :: store.filter (fun r => r.1 ≠ id)

/-- Modelled from the spec: `SessionStorage::remove_session` deletes the
    record for `id`; removing a non-existent id is an idempotent no-op. -/
def storeRemove (store : Store) (id : String) : Store :=
  store.filter (fun r => r.1 ≠ id)

/-- A buffered cookie mutation staged by the middleware for the outgoing
    response. -/
inductive CookieOp where
  | set (id : String)
  | remove
deriving DecidableEq

/-- The cookie jar as seen by the middleware: the session-cookie value
    carried by the request, plus the buffered response mutation that the
    outer cookie-jar-management stage will flush. -/
structure CookieJar where
  value : Option String
  staged : Option CookieOp
deriving DecidableEq

/-- Modelled from the spec: `CookieConfig::get_cookie_value` reads the
    current session identifier carried by the request. -/
def getCookieValue (jar : CookieJar) : Option String :=
  jar.value

/-- Modelled from the spec: `CookieConfig::set_cookie_value` stages a
    response cookie carrying `id`. -/
def setCookieValue (jar : CookieJar) (id : String) : CookieJar :=
  ⟨jar.value, some (CookieOp.set id)⟩

/-- Modelled from the spec: `CookieConfig::remove_cookie` stages removal
    (expiry) of the cookie. -/
def removeCookie (jar : CookieJar) : CookieJar :=
  ⟨jar.value, some CookieOp.remove⟩

/-- The observable operations performed by `ServerSessionEndpoint::call`,
    recorded in the order the code issues them. -/
inductive Event where
  | loadStore (id : String)
  | callHandler
  | removeStore (id : String)
  | upsertStore (id : String) (entries : Entries) (ttl : Nat)
  | genId (id : String)
  | setCookie (id : String)
  | removeCookieStage
deriving DecidableEq

/-- Which storage calls fail during this request: the backend may fail any
    of its three operations (at most one load, one remove and one upsert
    happen per request). -/
structure FailSpec where
  load : Bool
  remove : Bool
  upsert : Bool
deriving DecidableEq

/-- The schedule on which no storage call fails. -/
def FailSpec.none : FailSpec :=
  ⟨false, false, false⟩

/-- The per-request inputs of `ServerSessionEndpoint::call`: the storage
    contents, the request cookie jar, the configured ttl, the identifier
    the generator would produce when one is needed, and the failure
    schedule of the backend. -/
structure Input where
  store : Store
  jar : CookieJar
  ttl : Nat
  newId : String
  fails : FailSpec

/-- The outcome of `ServerSessionEndpoint::call`: the request result (the
    handler output, or a storage error), the final storage contents, the
    final cookie jar, and the trace of operations performed. -/
structure Outcome where
  result : Except StorageError Nat
  store : Store
  jar : CookieJar
  trace : List Event

/-- The post-handler reconciliation of `ServerSessionEndpoint::call`: the
    `match session.status()` at lines 72-105 of
    `src/poem/src/session/server_session.rs`, applied to the final session
    `session` and the prior identifier `session_id`.  `resp` is the inner
    handler output and `pre` the trace of operations already performed.
    A failed storage call leaves the storage contents untouched and aborts
    via the `?` operator. -/
def reconcile (inp : Input) (session_id : Option String) (session : Session)
    (resp : Nat) (pre : List Event) : Outcome :=
  match session.status with
  | SessionStatus.changed =>
    match session_id with
    | some sid =>
      if inp.fails.upsert then
        ⟨Except.error StorageError.storageError, inp.store, inp.jar,
          pre ++ [Event.upsertStore sid session.entries inp.ttl]⟩
      else
        ⟨Except.ok resp, storeUpsert inp.store sid session.entries, inp.jar,
          pre ++ [Event.upsertStore sid session.entries inp.ttl]⟩
    | none =>
      let sid := inp.newId
      let jar := setCookieValue inp.jar sid
      if inp.fails.upsert then
        ⟨Except.error StorageError.storageError, inp.store, jar,
          pre ++ [Event.genId sid, Event.setCookie sid,
            Event.upsertStore sid session.entries inp.ttl]⟩
      else
        ⟨Except.ok resp, storeUpsert inp.store sid session.entries, jar,
          pre ++ [Event.genId sid, Event.setCookie sid,
            Event.upsertStore sid session.entries inp.ttl]⟩
  | SessionStatus.renewed =>
    match session_id with
    | some sid =>
      if inp.fails.remove then
        ⟨Except.error StorageError.storageError, inp.store, inp.jar,
          pre ++ [Event.removeStore sid]⟩
      else
        let store := storeRemove inp.store sid
        let nid := inp.newId
        let jar := setCookieValue inp.jar nid
        if inp.fails.upsert then
          ⟨Except.error StorageError.storageError, store, jar,
            pre ++ [Event.removeStore sid, Event.genId nid, Event.setCookie nid,
              Event.upsertStore nid session.entries inp.ttl]⟩
        else
          ⟨Except.ok resp, storeUpsert store nid session.entries, jar,
            pre ++ [Event.removeStore sid, Event.genId nid, Event.setCookie nid,
              Event.upsertStore nid session.entries inp.ttl]⟩
    | none =>
      let nid := inp.newId
      let jar := setCookieValue inp.jar nid
      if inp.fails.upsert then
        ⟨Except.error StorageError.storageError, inp.store, jar,
          pre ++ [Event.genId nid, Event.setCookie nid,
            Event.upsertStore nid session.entries inp.ttl]⟩
      else
        ⟨Except.ok resp, storeUpsert inp.store nid session.entries, jar,
          pre ++ [Event.genId nid, Event.setCookie nid,
            Event.upsertStore nid session.entries inp.ttl]⟩
  | SessionStatus.purged =>
    match session_id with
    | some sid =>
      if inp.fails.remove then
        ⟨Except.error StorageError.storageError, inp.store, inp.jar,
          pre ++ [Event.removeStore sid]⟩
      else
        ⟨Except.ok resp, storeRemove inp.store sid, removeCookie inp.jar,
          pre ++ [Event.removeStore sid, Event.removeCookieStage]⟩
    | none =>
      ⟨Except.ok resp, inp.store, inp.jar, pre⟩
  | SessionStatus.unchanged =>
    ⟨Except.ok resp, inp.store, inp.jar, pre⟩

/-- `ServerSessionEndpoint::call` (lines 58-108 of
    `src/poem/src/session/server_session.rs`): read the identifier from
    the cookie jar; when present, load the session from storage (a load
    failure aborts before the handler runs), otherwise build an empty
    session; invoke the inner handler on the shared session; then
    reconcile.  `handler` maps the session it is handed to the session it
    leaves behind together with its output. -/
def call (inp : Input) (handler : Session → Session × Nat) : Outcome :=
  let session_id := getCookieValue inp.jar
  match session_id with
  | some sid =>
    if inp.fails.load then
      ⟨Except.error StorageError.storageError, inp.store, inp.jar,
        [Event.loadStore sid]⟩
    else
      let session := Session.new (storeLoad inp.store sid)
      let pr := handler session
      reconcile inp (some sid) pr.1 pr.2 [Event.loadStore sid, Event.callHandler]
  | none =>
    let pr := handler Session.defaultSession
    reconcile inp none pr.1 pr.2 [Event.callHandler]

/-- Modelled from the spec: the byte values of the alphanumeric alphabet
    (upper-case letters, lower-case letters, digits) that the `rand`
    crate's `Alphanumeric` distribution draws from. -/
def alphanumericBytes : List Nat :=
  (List.range 26).map (fun i => 65 + i) ++
    (List.range 26).map (fun i => 97 + i) ++
    (List.range 10).map (fun i => 48 + i)

/-- A UTF-8 continuation byte: `0x80 ≤ b < 0xC0`. -/
def isCont (b : Nat) : Bool :=
  128 ≤ b && b < 192

/-- One step of UTF-8 decoding: the scalar encoded at the head of the
    byte list together with the remaining bytes, or `none` when the head
    is not a valid UTF-8 sequence (stray or missing continuation byte,
    overlong form, surrogate, or value above `U+10FFFF`). -/
def utf8DecodeOne : List Nat → Option (Char × List Nat)
  | [] => none
  | b :: rest =>
    if b < 128 then
      some (Char.ofNat b, rest)
    else if b < 194 then
      none
    else if b < 224 then
      match rest with
      | b2 :: rest2 =>
        if isCont b2 then
          some (Char.ofNat ((b - 192) * 64 + (b2 - 128)), rest2)
        else none
      | [] => none
    else if b < 240 then
      match rest with
      | b2 :: b3 :: rest3 =>
        if (if b = 224 then decide (160 ≤ b2) && decide (b2 < 192)
            else if b = 237 then decide (128 ≤ b2) && decide (b2 < 160)
            else isCont b2) && isCont b3 then
          some (Char.ofNat ((b - 224) * 4096 + (b2 - 128) * 64 + (b3 - 128)),
            rest3)
        else none
      | _ => none
    else if b < 245 then
      match rest with
      | b2 :: b3 :: b4 :: rest4 =>
        if (if b = 240 then decide (144 ≤ b2) && decide (b2 < 192)
            else if b = 244 then decide (128 ≤ b2) && decide (b2 < 144)
            else isCont b2) && isCont b3 && isCont b4 then
          some (Char.ofNat ((b - 240) * 262144 + (b2 - 128) * 4096 +
            (b3 - 128) * 64 + (b4 - 128)), rest4)
        else none
      | _ => none
    else none

/-- Iterate `utf8DecodeOne` over the byte list; every step consumes at
    least one byte, so a fuel equal to the list length never runs out. -/
def utf8DecodeLoop : Nat → List Nat → Option (List Char)
  | _, [] => some []
  | 0, _ :: _ => none
  | fuel + 1, b :: rest =>
    match utf8DecodeOne (b :: rest) with
    | some (c, remaining) =>
      (utf8DecodeLoop fuel remaining).map (fun cs => c :: cs)
    | none => none

/-- UTF-8 decoding of a byte list, the model of `String::from_utf8` used
    at line 44 of the source: `none` exactly when the bytes are not valid
    UTF-8. -/
def utf8Decode (l : List Nat) : Option (List Char) :=
  utf8DecodeLoop l.length l

/-- `generate_session_id` (lines 39-45 of the source): draw 32 bytes from
    the `Alphanumeric` distribution and convert them to a `String`, with
    the empty string as fallback when the bytes are not valid UTF-8
    (`unwrap_or_default`).  `sample i` is the `i`-th byte drawn from the
    entropy source. -/
def generate_session_id (sample : Nat → Nat) : String :=
  let value := (List.range 32).map sample
  ((utf8Decode value).map (fun cs => String.mk cs)).getD ""

/-- The session handed to the inner handler: loaded from storage when the
    request carries an identifier, empty otherwise. -/
def initialSession (inp : Input) : Session :=
  match getCookieValue inp.jar with
  | some sid => Session.new (storeLoad inp.store sid)
  | none => Session.defaultSession

/-- The session as the inner handler leaves it. -/
def finalSession (inp : Input) (handler : Session → Session × Nat) : Session :=
  (handler (initialSession inp)).1

/-! ### Unfolding lemmas for `call` and `reconcile` -/

theorem call_some (inp : Input) (handler : Session → Session × Nat) (pid : String)
    (hjar : inp.jar.value = some pid) (hload : inp.fails.load = false) :
    call inp handler =
      reconcile inp (some pid) (finalSession inp handler)
        (handler (initialSession inp)).2
        [Event.loadStore pid, Event.callHandler] := by
  simp [call, getCookieValue, hjar, hload, finalSession, initialSession]

theorem call_none (inp : Input) (handler : Session → Session × Nat)
    (hjar : inp.jar.value = none) :
    call inp handler =
      reconcile inp none (finalSession inp handler)
        (handler (initialSession inp)).2 [Event.callHandler] := by
  simp [call, getCookieValue, hjar, finalSession, initialSession]

theorem call_loadfail (inp : Input) (handler : Session → Session × Nat) (pid : String)
    (hjar : inp.jar.value = some pid) (hload : inp.fails.load = true) :
    call inp handler =
      ⟨Except.error StorageError.storageError, inp.store, inp.jar,
        [Event.loadStore pid]⟩ := by
  simp [call, getCookieValue, hjar, hload]

theorem reconcile_unchanged (inp : Input) (sid : Option String) (s : Session)
    (resp : Nat) (pre : List Event) (hst : s.status = SessionStatus.unchanged) :
    reconcile inp sid s resp pre = ⟨Except.ok resp, inp.store, inp.jar, pre⟩ := by
  obtain ⟨e, st⟩ := s
  change st = SessionStatus.unchanged at hst
  subst hst
  cases sid <;> rfl

theorem reconcile_changed_some (inp : Input) (s : Session) (resp : Nat)
    (pre : List Event) (pid : String)
    (hst : s.status = SessionStatus.changed) (hup : inp.fails.upsert = false) :
    reconcile inp (some pid) s resp pre =
      ⟨Except.ok resp, storeUpsert inp.store pid s.entries, inp.jar,
        pre ++ [Event.upsertStore pid s.entries inp.ttl]⟩ := by
  obtain ⟨e, st⟩ := s
  change st = SessionStatus.changed at hst
  subst hst
  simp [reconcile, hup]

theorem reconcile_changed_none (inp : Input) (s : Session) (resp : Nat)
    (pre : List Event)
    (hst : s.status = SessionStatus.changed) (hup : inp.fails.upsert = false) :
    reconcile inp none s resp pre =
      ⟨Except.ok resp, storeUpsert inp.store inp.newId s.entries,
        setCookieValue inp.jar inp.newId,
        pre ++ [Event.genId inp.newId, Event.setCookie inp.newId,
          Event.upsertStore inp.newId s.entries inp.ttl]⟩ := by
  obtain ⟨e, st⟩ := s
  change st = SessionStatus.changed at hst
  subst hst
  simp [reconcile, hup]

theorem reconcile_renewed_some (inp : Input) (s : Session) (resp : Nat)
    (pre : List Event) (pid : String)
    (hst : s.status = SessionStatus.renewed)
    (hrem : inp.fails.remove = false) (hup : inp.fails.upsert = false) :
    reconcile inp (some pid) s resp pre =
      ⟨Except.ok resp, storeUpsert (storeRemove inp.store pid) inp.newId s.entries,
        setCookieValue inp.jar inp.newId,
        pre ++ [Event.removeStore pid, Event.genId inp.newId,
          Event.setCookie inp.newId,
          Event.upsertStore inp.newId s.entries inp.ttl]⟩ := by
  obtain ⟨e, st⟩ := s
  change st = SessionStatus.renewed at hst
  subst hst
  simp [reconcile, hrem, hup]

theorem reconcile_renewed_none (inp : Input) (s : Session) (resp : Nat)
    (pre : List Event)
    (hst : s.status = SessionStatus.renewed) (hup : inp.fails.upsert = false) :
    reconcile inp none s resp pre =
      ⟨Except.ok resp, storeUpsert inp.store inp.newId s.entries,
        setCookieValue inp.jar inp.newId,
        pre ++ [Event.genId inp.newId, Event.setCookie inp.newId,
          Event.upsertStore inp.newId s.entries inp.ttl]⟩ := by
  obtain ⟨e, st⟩ := s
  change st = SessionStatus.renewed at hst
  subst hst
  simp [reconcile, hup]

theorem reconcile_renewed_some_removefail (inp : Input) (s : Session) (resp : Nat)
    (pre : List Event) (pid : String)
    (hst : s.status = SessionStatus.renewed) (hrem : inp.fails.remove = true) :
    reconcile inp (some pid) s resp pre =
      ⟨Except.error StorageError.storageError, inp.store, inp.jar,
        pre ++ [Event.removeStore pid]⟩ := by
  obtain ⟨e, st⟩ := s
  change st = SessionStatus.renewed at hst
  subst hst
  simp [reconcile, hrem]

theorem reconcile_purged_some (inp : Input) (s : Session) (resp : Nat)
    (pre : List Event) (pid : String)
    (hst : s.status = SessionStatus.purged) (hrem : inp.fails.remove = false) :
    reconcile inp (some pid) s resp pre =
      ⟨Except.ok resp, storeRemove inp.store pid, removeCookie inp.jar,
        pre ++ [Event.removeStore pid, Event.removeCookieStage]⟩ := by
  obtain ⟨e, st⟩ := s
  change st = SessionStatus.purged at hst
  subst hst
  simp [reconcile, hrem]

theorem reconcile_purged_some_removefail (inp : Input) (s : Session) (resp : Nat)
    (pre : List Event) (pid : String)
    (hst : s.status = SessionStatus.purged) (hrem : inp.fails.remove = true) :
    reconcile inp (some pid) s resp pre =
      ⟨Except.error StorageError.storageError, inp.store, inp.jar,
        pre ++ [Event.removeStore pid]⟩ := by
  obtain ⟨e, st⟩ := s
  change st = SessionStatus.purged at hst
  subst hst
  simp [reconcile, hrem]

theorem reconcile_purged_none (inp : Input) (s : Session) (resp : Nat)
    (pre : List Event) (hst : s.status = SessionStatus.purged) :
    reconcile inp none s resp pre = ⟨Except.ok resp, inp.store, inp.jar, pre⟩ := by
  obtain ⟨e, st⟩ := s
  change st = SessionStatus.purged at hst
  subst hst
  rfl

theorem reconcile_changed_some_upsertfail (inp : Input) (s : Session) (resp : Nat)
    (pre : List Event) (pid : String)
    (hst : s.status = SessionStatus.changed) (hup : inp.fails.upsert = true) :
    reconcile inp (some pid) s resp pre =
      ⟨Except.error StorageError.storageError, inp.store, inp.jar,
        pre ++ [Event.upsertStore pid s.entries inp.ttl]⟩ := by
  obtain ⟨e, st⟩ := s
  change st = SessionStatus.changed at hst
  subst hst
  simp [reconcile, hup]

theorem reconcile_changed_none_upsertfail (inp : Input) (s : Session) (resp : Nat)
    (pre : List Event)
    (hst : s.status = SessionStatus.changed) (hup : inp.fails.upsert = true) :
    reconcile inp none s resp pre =
      ⟨Except.error StorageError.storageError, inp.store,
        setCookieValue inp.jar inp.newId,
        pre ++ [Event.genId inp.newId, Event.setCookie inp.newId,
          Event.upsertStore inp.newId s.entries inp.ttl]⟩ := by
  obtain ⟨e, st⟩ := s
  change st = SessionStatus.changed at hst
  subst hst
  simp [reconcile, hup]

theorem reconcile_renewed_some_upsertfail (inp : Input) (s : Session) (resp : Nat)
    (pre : List Event) (pid : String)
    (hst : s.status = SessionStatus.renewed)
    (hrem : inp.fails.remove = false) (hup : inp.fails.upsert = true) :
    reconcile inp (some pid) s resp pre =
      ⟨Except.error StorageError.storageError, storeRemove inp.store pid,
        setCookieValue inp.jar inp.newId,
        pre ++ [Event.removeStore pid, Event.genId inp.newId,
          Event.setCookie inp.newId,
          Event.upsertStore inp.newId s.entries inp.ttl]⟩ := by
  obtain ⟨e, st⟩ := s
  change st = SessionStatus.renewed at hst
  subst hst
  simp [reconcile, hrem, hup]

theorem reconcile_renewed_none_upsertfail (inp : Input) (s : Session) (resp : Nat)
    (pre : List Event)
    (hst : s.status = SessionStatus.renewed) (hup : inp.fails.upsert = true) :
    reconcile inp none s resp pre =
      ⟨Except.error StorageError.storageError, inp.store,
        setCookieValue inp.jar inp.newId,
        pre ++ [Event.genId inp.newId, Event.setCookie inp.newId,
          Event.upsertStore inp.newId s.entries inp.ttl]⟩ := by
  obtain ⟨e, st⟩ := s
  change st = SessionStatus.renewed at hst
  subst hst
  simp [reconcile, hup]

theorem storeLookup_upsert_self (store : Store) (id : String) (e : Entries) :
    storeLookup (storeUpsert store id e) id = some e := by
  simp [storeLookup, storeUpsert, List.find?]

/-! ### Concrete requests used as witnesses -/

/-- A request carrying cookie identifier `abc`, with one stored record,
    ttl 5, generator output `xyz`, and a fault-free backend. -/
def sampleInput : Input :=
  ⟨[("abc", [("role", "guest")])], ⟨some "abc", none⟩, 5, "xyz", FailSpec.none⟩

/-- The same request with a backend whose `remove_session` fails. -/
def removeFailInput : Input :=
  ⟨[("abc", [("role", "guest")])], ⟨some "abc", none⟩, 5, "xyz",
    ⟨false, true, false⟩⟩

/-- The same request with a backend whose `load_session` fails. -/
def loadFailInput : Input :=
  ⟨[("abc", [("role", "guest")])], ⟨some "abc", none⟩, 5, "xyz",
    ⟨true, false, false⟩⟩

/-- The same request with a backend whose `update_session` fails. -/
def upsertFailInput : Input :=
  ⟨[("abc", [("role", "guest")])], ⟨some "abc", none⟩, 5, "xyz",
    ⟨false, false, true⟩⟩

/-- A request carrying no session cookie at all. -/
def noCookieInput : Input :=
  ⟨[], ⟨none, none⟩, 5, "xyz", FailSpec.none⟩

/-! ### The claims -/

/-- C1: for a request whose final session status is `Renewed`: with a
    prior identifier in the cookie the middleware first calls
    `remove_session` on the prior identifier and only afterwards generates
    the new identifier, stages it in the cookie, and upserts the entries
    under it with the configured ttl; without a prior identifier the
    remove step is skipped.  The trace equality places the remove of the
    old id strictly before the upsert of the new id. -/
theorem renewed_remove_before_upsert (inp : Input)
    (handler : Session → Session × Nat)
    (hload : inp.fails.load = false) (hrem : inp.fails.remove = false)
    (hup : inp.fails.upsert = false)
    (hst : (finalSession inp handler).status = SessionStatus.renewed) :
    (∀ pid, inp.jar.value = some pid →
      (call inp handler).trace =
        [Event.loadStore pid, Event.callHandler, Event.removeStore pid,
          Event.genId inp.newId, Event.setCookie inp.newId,
          Event.upsertStore inp.newId (finalSession inp handler).entries inp.ttl] ∧
      (call inp handler).jar = setCookieValue inp.jar inp.newId ∧
      (call inp handler).store =
        storeUpsert (storeRemove inp.store pid) inp.newId
          (finalSession inp handler).entries) ∧
    (inp.jar.value = none →
      (call inp handler).trace =
        [Event.callHandler, Event.genId inp.newId, Event.setCookie inp.newId,
          Event.upsertStore inp.newId (finalSession inp handler).entries inp.ttl] ∧
      (call inp handler).jar = setCookieValue inp.jar inp.newId ∧
      (call inp handler).store =
        storeUpsert inp.store inp.newId (finalSession inp handler).entries) := by
  constructor
  · intro pid hjar
    rw [call_some inp handler pid hjar hload,
      reconcile_renewed_some inp _ _ _ pid hst hrem hup]
    exact ⟨rfl, rfl, rfl⟩
  · intro hjar
    rw [call_none inp handler hjar, reconcile_renewed_none inp _ _ _ hst hup]
    exact ⟨rfl, rfl, rfl⟩

/-- Witness for C1: a handler that calls `renew()` on the loaded session,
    on the concrete request `sampleInput`. -/
theorem renewed_remove_before_upsert_witness :
    (call sampleInput (fun s => (Session.renew s, 7))).trace =
      [Event.loadStore "abc", Event.callHandler, Event.removeStore "abc",
        Event.genId "xyz", Event.setCookie "xyz",
        Event.upsertStore "xyz" [("role", "guest")] 5] :=
  ((renewed_remove_before_upsert sampleInput (fun s => (Session.renew s, 7))
    rfl rfl rfl rfl).1 "abc" rfl).1

/-- C2: for a request whose final session status is `Purged`: with a prior
    identifier in the cookie the middleware calls `remove_session` on it
    and stages removal of the cookie; without a prior identifier no
    storage or cookie operation happens at all. -/
theorem purged_reconciliation (inp : Input) (handler : Session → Session × Nat)
    (hload : inp.fails.load = false) (hrem : inp.fails.remove = false)
    (hst : (finalSession inp handler).status = SessionStatus.purged) :
    (∀ pid, inp.jar.value = some pid →
      (call inp handler).trace =
        [Event.loadStore pid, Event.callHandler, Event.removeStore pid,
          Event.removeCookieStage] ∧
      (call inp handler).store = storeRemove inp.store pid ∧
      (call inp handler).jar = removeCookie inp.jar) ∧
    (inp.jar.value = none →
      (call inp handler).trace = [Event.callHandler] ∧
      (call inp handler).store = inp.store ∧
      (call inp handler).jar = inp.jar) := by
  constructor
  · intro pid hjar
    rw [call_some inp handler pid hjar hload,
      reconcile_purged_some inp _ _ _ pid hst hrem]
    exact ⟨rfl, rfl, rfl⟩
  · intro hjar
    rw [call_none inp handler hjar, reconcile_purged_none inp _ _ _ hst]
    exact ⟨rfl, rfl, rfl⟩

/-- Witness for C2: a handler that calls `purge()` on the loaded session,
    on the concrete request `sampleInput`. -/
theorem purged_reconciliation_witness :
    (call sampleInput (fun s => (Session.purge s, 7))).trace =
      [Event.loadStore "abc", Event.callHandler, Event.removeStore "abc",
        Event.removeCookieStage] :=
  ((purged_reconciliation sampleInput (fun s => (Session.purge s, 7))
    rfl rfl rfl).1 "abc" rfl).1

/-- C4: when the request presents a session identifier and the storage
    load for it fails, the request fails with a `StorageError`, the inner
    handler is never invoked, and neither the storage contents nor the
    cookie jar is mutated. -/
theorem load_failure_aborts (inp : Input) (handler : Session → Session × Nat)
    (pid : String) (hjar : inp.jar.value = some pid)
    (hload : inp.fails.load = true) :
    (call inp handler).result = Except.error StorageError.storageError ∧
    Event.callHandler ∉ (call inp handler).trace ∧
    (call inp handler).store = inp.store ∧
    (call inp handler).jar = inp.jar ∧
    (call inp handler).trace = [Event.loadStore pid] := by
  rw [call_loadfail inp handler pid hjar hload]
  refine ⟨rfl, ?_, rfl, rfl, rfl⟩
  simp

/-- Witness for C4: the concrete request `loadFailInput`, whose backend
    fails the load. -/
theorem load_failure_aborts_witness :
    (call loadFailInput (fun s => (s, 7))).result =
      Except.error StorageError.storageError :=
  (load_failure_aborts loadFailInput (fun s => (s, 7)) "abc" rfl rfl).1

/-- C5: for a request whose final session status is `Changed`: with a
    prior identifier in the cookie the middleware upserts the entries
    under that same identifier with the configured ttl, generating no
    identifier and leaving the cookie jar untouched; without a prior
    identifier it generates a fresh identifier, stages it in the cookie,
    and upserts the entries under it. -/
theorem changed_reconciliation (inp : Input) (handler : Session → Session × Nat)
    (hload : inp.fails.load = false) (hup : inp.fails.upsert = false)
    (hst : (finalSession inp handler).status = SessionStatus.changed) :
    (∀ pid, inp.jar.value = some pid →
      (call inp handler).trace =
        [Event.loadStore pid, Event.callHandler,
          Event.upsertStore pid (finalSession inp handler).entries inp.ttl] ∧
      (call inp handler).jar = inp.jar ∧
      (call inp handler).store =
        storeUpsert inp.store pid (finalSession inp handler).entries) ∧
    (inp.jar.value = none →
      (call inp handler).trace =
        [Event.callHandler, Event.genId inp.newId, Event.setCookie inp.newId,
          Event.upsertStore inp.newId (finalSession inp handler).entries inp.ttl] ∧
      (call inp handler).jar = setCookieValue inp.jar inp.newId ∧
      (call inp handler).store =
        storeUpsert inp.store inp.newId (finalSession inp handler).entries) := by
  constructor
  · intro pid hjar
    rw [call_some inp handler pid hjar hload,
      reconcile_changed_some inp _ _ _ pid hst hup]
    exact ⟨rfl, rfl, rfl⟩
  · intro hjar
    rw [call_none inp handler hjar, reconcile_changed_none inp _ _ _ hst hup]
    exact ⟨rfl, rfl, rfl⟩

/-- Witness for C5: a handler that writes `user_id = 42` into a session
    loaded without a prior cookie, on the concrete request
    `noCookieInput`. -/
theorem changed_reconciliation_witness :
    (call noCookieInput (fun s => (Session.set s "user_id" "42", 7))).trace =
      [Event.callHandler, Event.genId "xyz", Event.setCookie "xyz",
        Event.upsertStore "xyz" [("user_id", "42")] 5] :=
  ((changed_reconciliation noCookieInput
    (fun s => (Session.set s "user_id" "42", 7)) rfl rfl rfl).2 rfl).1

/-- C6: for a request whose final session status is `Unchanged` — in
    particular whenever the handler leaves the session exactly as it found
    it, neither mutating an entry nor calling `renew` or `purge` — no
    storage operation besides the initial load, no cookie mutation, and no
    identifier generation happens: storage and jar are returned exactly as
    they were, and the trace holds only the load (if any) and the handler
    invocation. -/
theorem unchanged_noop (inp : Input) (handler : Session → Session × Nat)
    (hload : inp.fails.load = false)
    (hst : (finalSession inp handler).status = SessionStatus.unchanged ∨
      ∀ s, (handler s).1 = s) :
    (call inp handler).store = inp.store ∧
    (call inp handler).jar = inp.jar ∧
    (∀ pid, inp.jar.value = some pid →
      (call inp handler).trace = [Event.loadStore pid, Event.callHandler]) ∧
    (inp.jar.value = none → (call inp handler).trace = [Event.callHandler]) := by
  have hst2 : (finalSession inp handler).status = SessionStatus.unchanged := by
    rcases hst with h | h
    · exact h
    · rw [finalSession, h]
      rcases hjv : inp.jar.value with _ | pid <;>
        simp [initialSession, getCookieValue, hjv, Session.new,
          Session.defaultSession]
  rcases hjv : inp.jar.value with _ | pid
  · rw [call_none inp handler hjv, reconcile_unchanged _ _ _ _ _ hst2]
    refine ⟨rfl, rfl, ?_, fun _ => rfl⟩
    intro p hp
    exact absurd hp (by simp)
  · rw [call_some inp handler pid hjv hload, reconcile_unchanged _ _ _ _ _ hst2]
    refine ⟨rfl, rfl, ?_, ?_⟩
    · intro p hp
      obtain rfl : pid = p := by injection hp
      rfl
    · intro hp
      exact absurd hp (by simp)

/-- Witness for C6: a handler that only reads the session, on the concrete
    request `sampleInput`. -/
theorem unchanged_noop_witness :
    (call sampleInput (fun s => (s, 7))).store = sampleInput.store :=
  (unchanged_noop sampleInput (fun s => (s, 7)) rfl (Or.inr fun _ => rfl)).1

/-- C10: in the `Renewed` path with a prior identifier, when the remove of
    the prior record fails the request aborts with a `StorageError` before
    any identifier is generated and before any cookie mutation is staged:
    the jar is returned untouched (still carrying the old identifier), the
    storage contents are untouched, and the trace ends at the failed
    remove. -/
theorem renewed_remove_failure_aborts (inp : Input)
    (handler : Session → Session × Nat) (pid : String)
    (hjar : inp.jar.value = some pid) (hload : inp.fails.load = false)
    (hrem : inp.fails.remove = true)
    (hst : (finalSession inp handler).status = SessionStatus.renewed) :
    (call inp handler).result = Except.error StorageError.storageError ∧
    (call inp handler).jar = inp.jar ∧
    (call inp handler).store = inp.store ∧
    (call inp handler).trace =
      [Event.loadStore pid, Event.callHandler, Event.removeStore pid] := by
  rw [call_some inp handler pid hjar hload,
    reconcile_renewed_some_removefail inp _ _ _ pid hst hrem]
  exact ⟨rfl, rfl, rfl, rfl⟩

/-- Witness for C10: a handler that calls `renew()` on the concrete
    request `removeFailInput`, whose backend fails the remove. -/
theorem renewed_remove_failure_aborts_witness :
    (call removeFailInput (fun s => (Session.renew s, 7))).trace =
      [Event.loadStore "abc", Event.callHandler, Event.removeStore "abc"] :=
  (renewed_remove_failure_aborts removeFailInput (fun s => (Session.renew s, 7))
    "abc" rfl rfl rfl rfl).2.2.2

/-- C3: for a request that ends with status `Purged` and a prior
    identifier, the storage record and the cookie are cleared together: on
    a successful request both the record is removed and the cookie removal
    is staged, while on a failed remove neither the storage contents nor
    the jar is touched — a partial purge never happens. -/
theorem purged_clears_both_or_neither (inp : Input)
    (handler : Session → Session × Nat) (pid : String)
    (hjar : inp.jar.value = some pid) (hload : inp.fails.load = false)
    (hst : (finalSession inp handler).status = SessionStatus.purged) :
    ((call inp handler).result = Except.error StorageError.storageError →
      (call inp handler).store = inp.store ∧
      (call inp handler).jar = inp.jar) ∧
    (∀ r, (call inp handler).result = Except.ok r →
      (call inp handler).store = storeRemove inp.store pid ∧
      (call inp handler).jar = removeCookie inp.jar) := by
  cases hrem : inp.fails.remove with
  | false =>
    rw [call_some inp handler pid hjar hload,
      reconcile_purged_some inp _ _ _ pid hst hrem]
    refine ⟨?_, fun r _ => ⟨rfl, rfl⟩⟩
    intro h
    exact absurd h (by simp)
  | true =>
    rw [call_some inp handler pid hjar hload,
      reconcile_purged_some_removefail inp _ _ _ pid hst hrem]
    refine ⟨fun _ => ⟨rfl, rfl⟩, ?_⟩
    intro r h
    exact absurd h (by simp)

/-- Witness for C3: a handler that calls `purge()` on the concrete request
    `sampleInput`; the successful request clears both halves. -/
theorem purged_clears_both_or_neither_witness :
    (call sampleInput (fun s => (Session.purge s, 7))).store =
      storeRemove sampleInput.store "abc" ∧
    (call sampleInput (fun s => (Session.purge s, 7))).jar =
      removeCookie sampleInput.jar :=
  (purged_clears_both_or_neither sampleInput (fun s => (Session.purge s, 7))
    "abc" rfl rfl rfl).2 7 rfl

/-- C7: when a storage operation of the post-handler reconciliation (a
    remove or an upsert) fails, the whole request aborts with a
    `StorageError`, even though the inner handler already completed; the
    handler's output is returned exactly when no storage failure
    occurred. -/
theorem reconciliation_failure_aborts (inp : Input)
    (handler : Session → Session × Nat) :
    (∀ pid, Event.removeStore pid ∈ (call inp handler).trace →
      inp.fails.remove = true →
      (call inp handler).result = Except.error StorageError.storageError) ∧
    (∀ nid e t, Event.upsertStore nid e t ∈ (call inp handler).trace →
      inp.fails.upsert = true →
      (call inp handler).result = Except.error StorageError.storageError) ∧
    (∀ r, (call inp handler).result = Except.ok r →
      r = (handler (initialSession inp)).2) := by
  rcases hjv : inp.jar.value with _ | pid
  · rw [call_none inp handler hjv]
    rcases hfs : finalSession inp handler with ⟨e, st⟩
    cases st <;> cases hrem : inp.fails.remove <;>
      cases hup : inp.fails.upsert <;>
      simp [reconcile, hrem, hup, eq_comm]
  · cases hload : inp.fails.load with
    | false =>
      rw [call_some inp handler pid hjv hload]
      rcases hfs : finalSession inp handler with ⟨e, st⟩
      cases st <;> cases hrem : inp.fails.remove <;>
        cases hup : inp.fails.upsert <;>
        simp [reconcile, hrem, hup, eq_comm]
    | true =>
      rw [call_loadfail inp handler pid hjv hload]
      simp

/-- Witness for C7: a handler that writes an entry, on the concrete
    request `upsertFailInput`, whose backend fails the upsert. -/
theorem reconciliation_failure_aborts_witness :
    (call upsertFailInput (fun s => (Session.set s "user_id" "42", 7))).result =
      Except.error StorageError.storageError :=
  (reconciliation_failure_aborts upsertFailInput
      (fun s => (Session.set s "user_id" "42", 7))).2.1 "abc"
    [("user_id", "42"), ("role", "guest")] 5 (by decide) rfl

/-- At the reconciliation stage: on a successful result, a session
    identifier staged into the cookie (starting from a jar with nothing
    staged) was upserted during the same reconciliation and its record is
    present in the final storage contents. -/
theorem reconcile_no_dangling (inp : Input) (sid : Option String) (s : Session)
    (resp : Nat) (pre : List Event) (hinit : inp.jar.staged = none)
    (r : Nat) (id : String)
    (hok : (reconcile inp sid s resp pre).result = Except.ok r)
    (hset : (reconcile inp sid s resp pre).jar.staged =
      some (CookieOp.set id)) :
    (∃ e t, Event.upsertStore id e t ∈ (reconcile inp sid s resp pre).trace) ∧
    (storeLookup (reconcile inp sid s resp pre).store id).isSome = true := by
  obtain ⟨en, st⟩ := s
  cases st with
  | unchanged =>
    rw [reconcile_unchanged inp sid _ resp pre rfl] at hset
    simp [hinit] at hset
  | changed =>
    rcases sid with _ | pid
    · cases hup : inp.fails.upsert with
      | false =>
        rw [reconcile_changed_none inp _ resp pre rfl hup] at hset ⊢
        simp [setCookieValue] at hset
        subst hset
        exact ⟨⟨en, inp.ttl, by simp⟩, by simp [storeLookup_upsert_self]⟩
      | true =>
        rw [reconcile_changed_none_upsertfail inp _ resp pre rfl hup] at hok
        simp at hok
    · cases hup : inp.fails.upsert with
      | false =>
        rw [reconcile_changed_some inp _ resp pre pid rfl hup] at hset
        simp [hinit] at hset
      | true =>
        rw [reconcile_changed_some_upsertfail inp _ resp pre pid rfl hup] at hok
        simp at hok
  | renewed =>
    rcases sid with _ | pid
    · cases hup : inp.fails.upsert with
      | false =>
        rw [reconcile_renewed_none inp _ resp pre rfl hup] at hset ⊢
        simp [setCookieValue] at hset
        subst hset
        exact ⟨⟨en, inp.ttl, by simp⟩, by simp [storeLookup_upsert_self]⟩
      | true =>
        rw [reconcile_renewed_none_upsertfail inp _ resp pre rfl hup] at hok
        simp at hok
    · cases hrem : inp.fails.remove with
      | false =>
        cases hup : inp.fails.upsert with
        | false =>
          rw [reconcile_renewed_some inp _ resp pre pid rfl hrem hup] at hset ⊢
          simp [setCookieValue] at hset
          subst hset
          exact ⟨⟨en, inp.ttl, by simp⟩, by simp [storeLookup_upsert_self]⟩
        | true =>
          rw [reconcile_renewed_some_upsertfail inp _ resp pre pid rfl hrem hup]
            at hok
          simp at hok
      | true =>
        rw [reconcile_renewed_some_removefail inp _ resp pre pid rfl hrem] at hok
        simp at hok
  | purged =>
    rcases sid with _ | pid
    · rw [reconcile_purged_none inp _ resp pre rfl] at hset
      simp [hinit] at hset
    · cases hrem : inp.fails.remove with
      | false =>
        rw [reconcile_purged_some inp _ resp pre pid rfl hrem] at hset
        simp [removeCookie] at hset
      | true =>
        rw [reconcile_purged_some_removefail inp _ resp pre pid rfl hrem] at hok
        simp at hok

/-- C8: on a request that returns without error, any session identifier
    staged in the outgoing cookie (the jar having arrived with nothing
    staged) was written to storage by an upsert of the same request, and
    its record is present in the final storage contents — no dangling
    cookie reference on a successful response. -/
theorem no_dangling_cookie (inp : Input) (handler : Session → Session × Nat)
    (hinit : inp.jar.staged = none) (r : Nat) (id : String)
    (hok : (call inp handler).result = Except.ok r)
    (hset : (call inp handler).jar.staged = some (CookieOp.set id)) :
    (∃ e t, Event.upsertStore id e t ∈ (call inp handler).trace) ∧
    (storeLookup (call inp handler).store id).isSome = true := by
  rcases hjv : inp.jar.value with _ | pid
  · rw [call_none inp handler hjv] at hok hset ⊢
    exact reconcile_no_dangling inp none _ _ _ hinit r id hok hset
  · cases hload : inp.fails.load with
    | false =>
      rw [call_some inp handler pid hjv hload] at hok hset ⊢
      exact reconcile_no_dangling inp (some pid) _ _ _ hinit r id hok hset
    | true =>
      rw [call_loadfail inp handler pid hjv hload] at hok
      simp at hok

/-- Witness for C8: the fresh-session request `noCookieInput` whose
    handler writes an entry; the staged identifier `xyz` has a record in
    the final storage contents. -/
theorem no_dangling_cookie_witness :
    (storeLookup
      (call noCookieInput (fun s => (Session.set s "user_id" "42", 7))).store
      "xyz").isSome = true :=
  (no_dangling_cookie noCookieInput (fun s => (Session.set s "user_id" "42", 7))
    rfl 7 "xyz" rfl rfl).2

/-! ### The identifier generator -/

theorem alphanumericBytes_lt_128 : ∀ b ∈ alphanumericBytes, b < 128 := by
  decide

theorem char_toNat_ofNat_of_lt (b : Nat) (h : b < 128) :
    (Char.ofNat b).toNat = b := by
  have hv : Nat.isValidChar b := Or.inl (by omega)
  simp [Char.ofNat, hv, Char.ofNatAux, Char.toNat, UInt32.toNat,
    BitVec.toNat_ofNatLt]

theorem utf8DecodeOne_ascii (b : Nat) (rest : List Nat) (hb : b < 128) :
    utf8DecodeOne (b :: rest) = some (Char.ofNat b, rest) := by
  rcases rest with _ | ⟨b2, _ | ⟨b3, _ | ⟨b4, rest4⟩⟩⟩ <;>
    simp [utf8DecodeOne, hb]

/-- On a list of ASCII bytes the UTF-8 decoder always succeeds, producing
    one character per byte. -/
theorem utf8Decode_ascii (l : List Nat) (h : ∀ b ∈ l, b < 128) :
    utf8Decode l = some (l.map (fun b => Char.ofNat b)) := by
  rw [utf8Decode]
  induction l with
  | nil => rfl
  | cons b rest ih =>
    have hb : b < 128 := h b (List.mem_cons_self b rest)
    have hrest := ih (fun x hx => h x (List.mem_cons_of_mem b hx))
    rw [List.length_cons, utf8DecodeLoop, utf8DecodeOne_ascii b rest hb]
    dsimp only
    rw [hrest]
    rfl

/-- C9: every generated session identifier is a string of exactly 32
    characters, each drawn from the alphanumeric alphabet; the UTF-8
    conversion of the sampled bytes can never fail, so the empty-string
    fallback of `unwrap_or_default` is unreachable and the result is never
    shorter than 32 characters. -/
theorem generate_session_id_spec (sample : Nat → Nat)
    (h : ∀ i, sample i ∈ alphanumericBytes) :
    utf8Decode ((List.range 32).map sample) ≠ none ∧
    (generate_session_id sample).length = 32 ∧
    ∀ c ∈ (generate_session_id sample).data, c.toNat ∈ alphanumericBytes := by
  have hlt : ∀ b ∈ (List.range 32).map sample, b < 128 := by
    intro b hb
    obtain ⟨i, _, rfl⟩ := List.mem_map.mp hb
    exact alphanumericBytes_lt_128 _ (h i)
  have hdec := utf8Decode_ascii _ hlt
  have hdata : (generate_session_id sample).data =
      ((List.range 32).map sample).map (fun b => Char.ofNat b) := by
    simp [generate_session_id, hdec]
  refine ⟨by simp [hdec], ?_, ?_⟩
  · rw [show (generate_session_id sample).length =
      (generate_session_id sample).data.length from rfl, hdata]
    simp
  · intro c hc
    rw [hdata] at hc
    obtain ⟨b, hbmem, rfl⟩ := List.mem_map.mp hc
    obtain ⟨i, _, rfl⟩ := List.mem_map.mp hbmem
    rw [char_toNat_ofNat_of_lt _ (alphanumericBytes_lt_128 _ (h i))]
    exact h i

/-- Witness for C9: the constant entropy source drawing the byte 65
    yields a 32-character identifier. -/
theorem generate_session_id_spec_witness :
    (generate_session_id (fun _ => 65)).length = 32 :=
  (generate_session_id_spec (fun _ => 65)
    (fun _ => show (65 : Nat) ∈ alphanumericBytes by decide)).2.1

end ServerSession
